import Mathlib

/-!
Shallow embedding of the xeus-cling-cuda-container recipe generator
(`xcc` package: `config.py`, `helper.py`, `cling.py`, `xeuscling.py`,
`openssl.py`, `jupyter.py`, `generator.py`).

Modelling conventions:
* Python `None` for an optional value becomes `Option _`; Python integer
  fields that may hold `None` become `Option Int`.
* Python exceptions (`ValueError`, `TypeError`, `IndexError`) become
  `Except String _` with the message carried in the error.
* The mutable `XCC_Config` object is threaded explicitly: a method that
  mutates the config returns the updated config next to its result.
* The hpccm template methods (`git().clone_step`, `CMakeBuild`,
  `wget().download_step`, `tar().untar_step`) belong to the external,
  out-of-scope rendering library; their outputs are modelled as
  constructors of an abstract command type `Cmd`, keyed by the exact
  arguments the xcc code passes to them.  A literal shell command string
  becomes `Cmd.raw`.
* Field and parameter names follow the source, except that names that
  cannot be used verbatim here are shortened: `build_prefix` is spelled
  `build_pfx`, `install_prefix` is `install_pfx`, `miniconda_prefix` is
  `miniconda_pfx`, `cling_install_prefix` is `cling_install_pfx`.
-/

namespace XCC

/-- Python `str(x)` for an `Optional[int]`: `None` prints as `"None"`. -/
def pyStrOptInt : Option Int → String
  | none => "None"
  | some i => toString i

/-- Python `str.lower()` (ASCII, as used on the CMake build-type names). -/
def pyLower (s : String) : String := s.map Char.toLower

/-- `pre` is a prefix of the character list. -/
def listHasPre : List Char → List Char → Bool
  | _, [] => true
  | [], _ :: _ => false
  | c :: cs, p :: ps => c == p && listHasPre cs ps

/-- Python `str.startswith`. -/
def pyStartsWith (s pre : String) : Bool := listHasPre s.data pre.data

/-- `pat` occurs as a contiguous substring of `s` (Python `pat in s`). -/
def strContains (s pat : String) : Bool :=
  let rec go : List Char → Bool
    | [] => listHasPre [] pat.data
    | c :: cs => listHasPre (c :: cs) pat.data || go cs
  go s.data

/-- `xcc/config.py`, `XCC_Config`: the configuration object.  The
`author`/`email`/`version` metadata constants are omitted; `build_pfx`
models `build_prefix` and `install_pfx` models `install_prefix`. -/
structure XCC_Config where
  container : String
  build_pfx : String
  install_pfx : String
  build_type : String
  second_build_type : String
  keep_build : Bool
  paths_to_delete : List String
  compiler_threads : Option Int
  linker_threads : Option Int
  build_libcxx : Bool
  clang_version : Int
  gen_args : String
deriving Repr, DecidableEq

/-- `xcc/config.py`, module-level `supported_clang_version = [8, 9]`. -/
def supported_clang_version : List Int := [8, 9]

/-- `xcc/config.py`, `check_build_type`. -/
def check_build_type (type : String) : Bool :=
  (["DEBUG", "RELEASE", "RELWITHDEBINFO", "MINSIZEREL"] : List String).contains type

/-- `xcc/config.py`, `XCC_Config.__init__`: validates `clang_version`,
`build_type` and `second_build_type`, raising `ValueError` otherwise, and
starts with an empty `paths_to_delete` list.  Arguments appear in the
source order of the keyword parameters. -/
def XCC_Config.init (container build_pfx install_pfx build_type
    second_build_type : String) (keep_build : Bool)
    (compiler_threads linker_threads : Option Int) (build_libcxx : Bool)
    (clang_version : Int) (gen_args : String) : Except String XCC_Config :=
  if ¬ supported_clang_version.contains clang_version then
    .error ("Clang version " ++ toString clang_version ++ " is not supported\n"
      ++ "Supported versions: 8, 9")
  else if ¬ check_build_type build_type then
    .error "build_type have to be: \x27DEBUG\x27, \x27RELEASE\x27, \x27RELWITHDEBINFO\x27, \x27MINSIZEREL\x27"
  else if second_build_type ≠ "" ∧ ¬ check_build_type second_build_type then
    .error "second_build_type have to be: \x27DEBUG\x27, \x27RELEASE\x27, \x27RELWITHDEBINFO\x27, \x27MINSIZEREL\x27"
  else
    .ok { container := container, build_pfx := build_pfx,
          install_pfx := install_pfx, build_type := build_type,
          second_build_type := second_build_type, keep_build := keep_build,
          paths_to_delete := [], compiler_threads := compiler_threads,
          linker_threads := linker_threads, build_libcxx := build_libcxx,
          clang_version := clang_version, gen_args := gen_args }

/-- `xcc/config.py`, `XCC_Config.get_copy`: re-runs the constructor with
every keyword argument the source passes — the source does NOT pass
`clang_version`, so the constructor default `8` applies — and then
deep-copies `paths_to_delete` onto the result. -/
def XCC_Config.get_copy (c : XCC_Config) : Except String XCC_Config :=
  match XCC_Config.init c.container c.build_pfx c.install_pfx c.build_type
      c.second_build_type c.keep_build c.compiler_threads c.linker_threads
      c.build_libcxx 8 c.gen_args with
  | .error e => .error e
  | .ok d => .ok { d with paths_to_delete := c.paths_to_delete }

/-- `xcc/config.py`, `XCC_Config.get_cmake_compiler_threads`: if the field
is `None` it is first set to `0` (a mutation, hence the returned config);
the result is `"$(nproc)"` for `0` and `str(n)` otherwise. -/
def XCC_Config.get_cmake_compiler_threads (c : XCC_Config) :
    String × XCC_Config :=
  match c.compiler_threads with
  | none => ("$(nproc)", { c with compiler_threads := some 0 })
  | some n => ((if n = 0 then "$(nproc)" else toString n), c)

/-- `xcc/config.py`, `XCC_Config.get_cmake_linker_threads`: if the field is
`None` it is first set to `0`; for `0` the source returns
`str(self.compiler_threads)` — the raw field as text, NOT the value of
`get_cmake_compiler_threads` — and `str(n)` otherwise. -/
def XCC_Config.get_cmake_linker_threads (c : XCC_Config) :
    String × XCC_Config :=
  match c.linker_threads with
  | none => (pyStrOptInt c.compiler_threads, { c with linker_threads := some 0 })
  | some n =>
      ((if n = 0 then pyStrOptInt c.compiler_threads else toString n), c)

/-- `xcc/config.py`, `XCC_Config.get_miniconda_path`. -/
def XCC_Config.get_miniconda_path (c : XCC_Config) : String :=
  c.install_pfx ++ "/miniconda3"

/-- `xcc/config.py`, inner class `XCC_Config.build_object`: build path,
install path, build type and related cling install path
(`cling_install_pfx` models `cling_install_path`). -/
structure build_object where
  build_path : String
  install_path : String
  build_type : String
  cling_install_path : String
deriving Repr, DecidableEq

/-- `xcc/config.py`, `XCC_Config.get_cling_build`: one build object, or two
with paths suffixed by the lower-cased build types when
`second_build_type` is set (Python truthiness: the empty string counts as
unset). -/
def XCC_Config.get_cling_build (c : XCC_Config) : List build_object :=
  if c.second_build_type = "" then
    [{ build_path := c.build_pfx ++ "/cling_build",
       install_path := c.install_pfx,
       build_type := c.build_type, cling_install_path := "" }]
  else
    [{ build_path := c.build_pfx ++ "/build_" ++ pyLower c.build_type,
       install_path := c.install_pfx ++ "/install_" ++ pyLower c.build_type,
       build_type := c.build_type, cling_install_path := "" },
     { build_path := c.build_pfx ++ "/build_" ++ pyLower c.second_build_type,
       install_path := c.install_pfx ++ "/install_" ++ pyLower c.second_build_type,
       build_type := c.second_build_type, cling_install_path := "" }]

/-! ## Commands and instructions (hpccm primitives and templates) -/

/-- One entry of a shell command list.  The hpccm template methods are the
out-of-scope external renderer; a call such as
`git().clone_step(repository=u, branch=b, path=p, directory=d)` is
modelled as the constructor `cloneStep u (some b) none p (some d) []`,
recording exactly the arguments the xcc code passes (with the `git(opts=)`
clone options in the last field).  A plain Python string in a command list
becomes `raw`. -/
inductive Cmd where
  | cloneStep (repository : String) (branch : Option String)
      (commit : Option String) (path : String) (directory : Option String)
      (opts : List String)
  | configureStep (build_directory : String) (directory : String)
      (opts : List String)
  | buildStep (parallel : Option String) (target : String)
  | downloadStep (url : String) (directory : String)
  | untarStep (tarball : String) (directory : String)
  | raw (s : String)
deriving Repr, DecidableEq

/-- One entry of the instruction list of `helper.build_git_and_cmake`
(`List[Union[shell, comment]]` in the source). -/
inductive Instr where
  | comment (s : String)
  | shell (commands : List Cmd)
deriving Repr, DecidableEq

/-- Python format spec `"{:f^w}".format(s)`: center `s` in width `w`
padding with `fill`, the extra character (odd padding) on the right. -/
def pyCenter (w : Nat) (fill : Char) (s : String) : String :=
  if w ≤ s.length then s
  else
    let total := w - s.length
    let left := total / 2
    String.mk (List.replicate left fill) ++ s
      ++ String.mk (List.replicate (total - left) fill)

/-- Python format spec `"{:<w}".format(s)`: left-justify in width `w`. -/
def pyLJust (w : Nat) (s : String) : String :=
  if w ≤ s.length then s
  else s ++ String.mk (List.replicate (w - s.length) ' ')

/-- `xcc/helper.py`, `add_comment_heading`: 68 slashes, the message
centered with slashes in a 68-wide field, 68 slashes. -/
def add_comment_heading (msg : String) : Instr :=
  .comment (String.mk (List.replicate 68 '/')
    ++ pyCenter 68 '/' (" " ++ msg ++ " ")
    ++ String.mk (List.replicate 68 '/'))

/-- `xcc/helper.py`, `build_git_and_cmake`: heading comment, then a single
`shell` whose command list is clone, configure, build(target=install); if
`keep_build` is false the build dir and then the source dir are appended
to `paths_to_delete`.  `get_cmake_compiler_threads` is called for the
build step, so its `None -> 0` mutation is threaded through. -/
def build_git_and_cmake (name url branch : String) (config : XCC_Config)
    (opts : List String) : List Instr × XCC_Config :=
  let cm_build_dir := config.build_pfx ++ "/" ++ name ++ "_build"
  let cm_source_dir := config.build_pfx ++ "/" ++ name
  let pt := config.get_cmake_compiler_threads
  let cm : List Cmd :=
    [ .cloneStep url (some branch) none config.build_pfx (some name) [],
      .configureStep cm_build_dir cm_source_dir opts,
      .buildStep (some pt.1) "install" ]
  let config2 := { pt.2 with paths_to_delete := pt.2.paths_to_delete
      ++ (if pt.2.keep_build then [] else [cm_build_dir, cm_source_dir]) }
  ([add_comment_heading ("Build " ++ name), .shell cm], config2)

/-- The option marker `helper.add_libcxx_cmake_arg` searches for:
`-DCMAKE_CXX_FLAGS="`. -/
def libcxxFlagMarker : String := "-DCMAKE_CXX_FLAGS=\""

/-- The option `helper.add_libcxx_cmake_arg` appends when no existing
compiler-flags option is found. -/
def libcxxDefaultArg : String := "-DCMAKE_CXX_FLAGS=\"-stdlib=libc++\""

/-- `xcc/helper.py`, `add_libcxx_cmake_arg`: rewrite the first element
starting with `-DCMAKE_CXX_FLAGS="` in place (drop its closing quote,
append ` -stdlib=libc++"`) and return; if no element matches, append a
fresh `-DCMAKE_CXX_FLAGS="-stdlib=libc++"` option at the end. -/
def add_libcxx_cmake_arg : List String → List String
  | [] => [libcxxDefaultArg]
  | elem :: rest =>
    if pyStartsWith elem libcxxFlagMarker then
      (elem.dropRight 1 ++ " -stdlib=libc++\"") :: rest
    else
      elem :: add_libcxx_cmake_arg rest

/-! ## `xcc/cling.py`, `build_cling` -/

/-- Python truthiness of an `Optional[str]`: `None` and `""` are falsy. -/
def optStrTruthy : Option String → Bool
  | none => false
  | some s => s ≠ ""

/-- Python truthiness of an `Optional[bool]`. -/
def optBoolTruthy : Option Bool → Bool
  | none => false
  | some b => b

/-- One entry of the `cm_builds` list of dicts inside `build_cling`
(keys `build_dir`, `install_dir`, `build_type`). -/
structure CMBuild where
  build_dir : String
  install_dir : String
  build_type : String
deriving Repr, DecidableEq

/-- `xcc/cling.py` lines 137-158: the `cm_builds` list.  Single build, or
— when `dual_build` is truthy — two builds whose build and install dirs
carry the lower-cased build type as suffix (the second entry also lowers
its `build_type` value, unlike the first). -/
def cling_cm_builds (build_pfx install_pfx build_type : String)
    (dual_build : Option String) : List CMBuild :=
  if ¬ optStrTruthy dual_build then
    [{ build_dir := build_pfx ++ "/cling_build", install_dir := install_pfx,
       build_type := build_type }]
  else
    let d := dual_build.getD ""
    [{ build_dir := build_pfx ++ "/build_" ++ pyLower build_type,
       install_dir := install_pfx ++ "/install_" ++ pyLower build_type,
       build_type := build_type },
     { build_dir := build_pfx ++ "/build_" ++ pyLower d,
       install_dir := install_pfx ++ "/install_" ++ pyLower d,
       build_type := pyLower d }]

/-- The cmake options `build_cling` assembles for one build variant. -/
def cling_cmake_opts (build_type c_threads l_threads : String)
    (build_libcxx : Option Bool) : List String :=
  [ "-G Ninja",
    "-DCMAKE_BUILD_TYPE=" ++ build_type,
    "-DLLVM_ABI_BREAKING_CHECKS=\"FORCE_OFF\"",
    "-DCMAKE_LINKER=/usr/bin/gold",
    "-DLLVM_ENABLE_RTTI=ON",
    "\x27-DCMAKE_JOB_POOLS:STRING=compile=" ++ c_threads ++ ";link="
      ++ l_threads ++ "\x27",
    "\x27-DCMAKE_JOB_POOL_COMPILE:STRING=compile\x27",
    "\x27-DCMAKE_JOB_POOL_LINK:STRING=link\x27",
    "-DLLVM_TARGETS_TO_BUILD=\"host;NVPTX\"",
    "-DCMAKE_EXPORT_COMPILE_COMMANDS=ON" ]
  ++ (if optBoolTruthy build_libcxx then ["-DLLVM_ENABLE_LIBCXX=ON"] else [])

/-- The per-variant command block of `build_cling`: configure, build, then
the kernel-registration commands (PATH extended for the pip call and
restored). -/
def cling_variant_cmds (build_pfx miniconda_pfx c_threads l_threads : String)
    (build_libcxx : Option Bool) (b : CMBuild) : List Cmd :=
  [ .configureStep b.build_dir (build_pfx ++ "/llvm")
      (cling_cmake_opts b.build_type c_threads l_threads build_libcxx),
    .buildStep none "install",
    .raw "PATH_bak=$PATH",
    .raw ("PATH=$PATH:" ++ b.install_dir ++ "/bin"),
    .raw ("cd " ++ b.install_dir ++ "/share/cling/Jupyter/kernel"),
    .raw (miniconda_pfx ++ "/bin/pip install -e ."),
    .raw "PATH=$PATH_bak",
    .raw "cd - " ]

/-- `xcc/cling.py`, `build_cling`: clone llvm/clang/cling (plus libc++ and
libc++abi when `build_libcxx` is truthy), then per build variant configure
and build with the job-pool options and register the cling Jupyter
kernel.  Returns the command list, the list of install dirs, and — when
the effective `keep_build` (`force_keep_build` overriding
`config.keep_build`) is false — the config with every build dir plus the
shared `build_prefix + "/llvm"` source tree appended to
`paths_to_delete`.  `build_pfx`, `install_pfx`, `miniconda_pfx` model the
`*_prefix` parameters. -/
def build_cling (build_pfx install_pfx miniconda_pfx build_type
    cling_url : String) (config : XCC_Config) (force_keep_build : Option Bool)
    (cling_branch cling_hash : Option String) (threads linker_threads : Option Int)
    (dual_build : Option String) (git_cling_opts : List String)
    (build_libcxx : Option Bool) : List Cmd × List String × XCC_Config :=
  let c_threads := match threads with
    | none => "$(nproc)"
    | some t => toString t
  let l_threads := match linker_threads with
    | none => c_threads
    | some t => toString t
  let clones : List Cmd :=
    [ .cloneStep "http://root.cern.ch/git/llvm.git" (some "cling-patches")
        none build_pfx (some "llvm") [],
      .cloneStep "http://root.cern.ch/git/clang.git" (some "cling-patches")
        none (build_pfx ++ "/llvm/tools") none [],
      .cloneStep cling_url cling_branch cling_hash
        (build_pfx ++ "/llvm/tools") none git_cling_opts ]
    ++ (if optBoolTruthy build_libcxx then
          [ .cloneStep "https://github.com/llvm-mirror/libcxx"
              (some "release_50") none (build_pfx ++ "/llvm/projects") none [],
            .cloneStep "https://github.com/llvm-mirror/libcxxabi"
              (some "release_50") none (build_pfx ++ "/llvm/projects") none [] ]
        else [])
  let cm_builds := cling_cm_builds build_pfx install_pfx build_type dual_build
  let cbc := clones ++ cm_builds.flatMap
    (cling_variant_cmds build_pfx miniconda_pfx c_threads l_threads build_libcxx)
  let cling_install_pfx := cm_builds.map (fun b => b.install_dir)
  let keep_build := force_keep_build.getD config.keep_build
  let config2 := { config with paths_to_delete := config.paths_to_delete
      ++ (if keep_build then []
          else cm_builds.map (fun b => b.build_dir) ++ [build_pfx ++ "/llvm"]) }
  (cbc, cling_install_pfx, config2)

/-! ## `xcc/xeuscling.py`, `build_xeus_cling` -/

/-- `xcc/xeuscling.py` lines 62-72: the build-directory list; one dir, or
two suffixed with the lower-cased build types when `second_build` is
truthy. -/
def xeus_cling_builds (build_pfx build_type : String)
    (second_build : Option String) : List String :=
  if ¬ optStrTruthy second_build then
    [build_pfx ++ "/xeus-cling_build"]
  else
    [ build_pfx ++ "/xeus-cling_build_" ++ pyLower build_type,
      build_pfx ++ "/xeus-cling_build_" ++ pyLower (second_build.getD "") ]

/-- The cmake options `build_xeus_cling` assembles for the variant that
uses the cling installation at `cp`. -/
def xeus_cmake_opts (miniconda_path build_type cp : String)
    (build_libcxx : Option Bool) : List String :=
  [ "-DCMAKE_INSTALL_LIBDIR=" ++ miniconda_path ++ "/lib",
    "-DCMAKE_LINKER=/usr/bin/gold",
    "-DCMAKE_BUILD_TYPE=" ++ build_type,
    "-DDISABLE_ARCH_NATIVE=ON",
    "-DCMAKE_EXPORT_COMPILE_COMMANDS=ON",
    "-DCMAKE_PREFIX_PATH=" ++ cp,
    "-DCMAKE_CXX_FLAGS=\"-I " ++ cp ++ "/include\"" ]
  ++ (if optBoolTruthy build_libcxx then
        ["-DCMAKE_CXX_FLAGS=\"-stdlib=libc++\""] else [])

/-- The loop of `build_xeus_cling` (lines 80-105): for build dir number
`i` it accesses `cling_path[i]` — an `IndexError` when the list is too
short — then emits the PATH assignment `PATH=$bPATH:/<cling_path[i]>/bin`
(the cling bin dir appended, with a literal extra slash, to the backed-up
PATH), the configure step and the build step. -/
def xeus_cling_loop (build_pfx build_type miniconda_path : String)
    (threads : Option Int) (build_libcxx : Option Bool)
    (cling_path : List String) : List String → Nat → Except String (List Cmd)
  | [], _ => .ok []
  | build_dir :: rest, i =>
    match cling_path.get? i with
    | none => .error "IndexError: list index out of range"
    | some cp =>
      match xeus_cling_loop build_pfx build_type miniconda_path threads
          build_libcxx cling_path rest (i + 1) with
      | .error e => .error e
      | .ok tail =>
        .ok ([ .raw ("PATH=$bPATH:/" ++ cp ++ "/bin"),
               .configureStep build_dir (build_pfx ++ "/xeus-cling")
                 (xeus_cmake_opts miniconda_path build_type cp build_libcxx),
               .buildStep (threads.map toString) "install" ] ++ tail)

/-- `xcc/xeuscling.py`, `build_xeus_cling`: clone xeus-cling, back the
search PATH up once (`bPATH=$PATH`), then per build variant set
`PATH=$bPATH:/<cling_path[i]>/bin`, configure and build.  There is no
command after the last build step; the original PATH is never restored.
If the effective `keep_build` is false every build dir plus the shared
source tree is appended to `paths_to_delete`. -/
def build_xeus_cling (build_pfx build_type url branch : String)
    (threads : Option Int) (config : XCC_Config) (miniconda_path : String)
    (cling_path : List String) (force_keep_build : Option Bool)
    (second_build : Option String) (build_libcxx : Option Bool) :
    Except String (List Cmd × XCC_Config) :=
  let builds := xeus_cling_builds build_pfx build_type second_build
  match xeus_cling_loop build_pfx build_type miniconda_path threads
      build_libcxx cling_path builds 0 with
  | .error e => .error e
  | .ok body =>
    let cm := Cmd.cloneStep url (some branch) none build_pfx
        (some "xeus-cling") [] :: Cmd.raw "bPATH=$PATH" :: body
    let keep_build := force_keep_build.getD config.keep_build
    .ok (cm, { config with paths_to_delete := config.paths_to_delete
        ++ (if keep_build then []
            else builds ++ [build_pfx ++ "/xeus-cling"]) })

/-! ## `xcc/openssl.py`, `build_openssl` -/

/-- `xcc/openssl.py`, `build_openssl`: download and untar the tarball,
`./config`, `make`, `make install`; appends the source dir and the
tarball to `paths_to_delete` when `keep_build` is false, and returns the
`OPENSSL_ROOT_DIR` environment variable.  Python truthiness: a thread
count of `None` or `0` falls back to `$(nproc)`. -/
def build_openssl (name build_pfx install_pfx : String)
    (threads : Option Int) (config : XCC_Config) :
    List Cmd × List (String × String) × XCC_Config :=
  let make_threads := match threads with
    | none => "$(nproc)"
    | some t => if t = 0 then "$(nproc)" else toString t
  let cm : List Cmd :=
    [ .downloadStep ("https://www.openssl.org/source/" ++ name ++ ".tar.gz")
        build_pfx,
      .untarStep (build_pfx ++ "/" ++ name ++ ".tar.gz") build_pfx,
      .raw ("cd " ++ build_pfx ++ "/" ++ name),
      .raw ("./config --prefix=" ++ install_pfx ++ " -Wl,-rpath=/usr/local/lib"),
      .raw ("make -j" ++ make_threads),
      .raw ("make install -j" ++ make_threads),
      .raw "cd -" ]
  let config2 := { config with paths_to_delete := config.paths_to_delete
      ++ (if config.keep_build then []
          else [build_pfx ++ "/" ++ name, build_pfx ++ "/" ++ name ++ ".tar.gz"]) }
  (cm, [("OPENSSL_ROOT_DIR", install_pfx)], config2)

/-! ## `xcc/jupyter.py`: kernel descriptors and the release registrar -/

/-- A Jupyter kernel descriptor as the Python dicts in `xcc/jupyter.py`
build it: display name, argument vector, language tag, and the optional
`env` mapping (empty list = no `env` key in the dict). -/
structure KernelSpec where
  display_name : String
  argv : List String
  language : String
  env : List (String × String)
deriving Repr, DecidableEq

/-- Double-quote a JSON string value.  (The values the xcc code feeds in
contain no characters `json.dumps` would escape, so escaping is not
modelled.) -/
def jsonQuote (s : String) : String := "\"" ++ s ++ "\""

/-- Comma-join already rendered JSON items, `json.dumps` default
separator `", "`. -/
def jsonJoin : List String → String
  | [] => ""
  | [x] => x
  | x :: xs => x ++ ", " ++ jsonJoin xs

/-- `json.dumps` of a kernel dict, key order as inserted by the source:
`display_name`, `argv`, `language`, then `env` when present. -/
def dumpsKernel (k : KernelSpec) : String :=
  "\x7b\"display_name\": " ++ jsonQuote k.display_name
    ++ ", \"argv\": [" ++ jsonJoin (k.argv.map jsonQuote) ++ "]"
    ++ ", \"language\": " ++ jsonQuote k.language
    ++ (if k.env = [] then ""
        else ", \"env\": \x7b"
          ++ jsonJoin (k.env.map (fun p => jsonQuote p.1 ++ ": " ++ jsonQuote p.2))
          ++ "\x7d")
    ++ "\x7d"

/-- `xcc/jupyter.py`, `gen_xeus_cling_jupyter_kernel`: the xeus-cling CUDA
kernel dict for C++ standard `cxx_std`; accelerator support comes from
the `-xcuda` argv flag, no `env` key is set. -/
def gen_xeus_cling_jupyter_kernel (miniconda_path : String) (cxx_std : Nat) :
    KernelSpec :=
  { display_name := "Xeus-C++" ++ toString cxx_std ++ "-CUDA",
    argv := [ miniconda_path ++ "/bin/xcpp", "-f", "\x7bconnection_file\x7d",
              "-std=c++" ++ toString cxx_std, "-xcuda" ],
    language := "C++" ++ toString cxx_std,
    env := [] }

/-- `xcc/jupyter.py`, `gen_cling_jupyter_kernel`: the cling kernel dict;
only with `cuda = true` is the `env` key `{"CLING_OPTS": "-xcuda"}`
added. -/
def gen_cling_jupyter_kernel (cxx_std : Nat) (cuda : Bool) : KernelSpec :=
  { display_name := "Cling-C++" ++ toString cxx_std
      ++ (if cuda then "-CUDA" else ""),
    argv := [ "jupyter-cling-kernel", "-f", "\x7bconnection_file\x7d",
              "--std=c++" ++ toString cxx_std ],
    language := "C++",
    env := if cuda then [("CLING_OPTS", "-xcuda")] else [] }

/-- The narrow comment banner line used between kernel blocks. -/
def jupyterBanner : String := "#/////////////////////////////"

/-- One xeus-cling-cuda registration block of `build_rel_jupyter_kernel`
(first loop): 4 comment lines, `mkdir -p`, the `echo ... > kernel.json`
descriptor write, and the `jupyter-kernelspec install` registration.
Returns the commands and the kernel path that is booked for deletion. -/
def rel_block_xeus (c : XCC_Config) (user_install_arg : String) (std : Nat) :
    List String × String :=
  let kernel_path := c.build_pfx ++ "/xeus-cling-cpp" ++ toString std ++ "-cuda"
  ( [ "", jupyterBanner,
      pyLJust 28 ("#// Jupyter Kernel: Xeus " ++ toString std ++ " cuda") ++ "//",
      jupyterBanner,
      "mkdir -p " ++ kernel_path,
      "echo \x27" ++ dumpsKernel (gen_xeus_cling_jupyter_kernel
          c.get_miniconda_path std) ++ "\x27 > " ++ kernel_path ++ "/kernel.json",
      "jupyter-kernelspec install " ++ user_install_arg ++ kernel_path ],
    kernel_path )

/-- One bare cling registration block of `build_rel_jupyter_kernel`
(second loop, `gen_cling_jupyter_kernel(std, False)`). -/
def rel_block_cling (c : XCC_Config) (user_install_arg : String) (std : Nat) :
    List String × String :=
  let kernel_path := c.build_pfx ++ "/cling-cpp" ++ toString std
  ( [ "", jupyterBanner,
      pyLJust 28 ("#// Jupyter Kernel: Cling " ++ toString std) ++ "//",
      jupyterBanner,
      "mkdir -p " ++ kernel_path,
      "echo \x27" ++ dumpsKernel (gen_cling_jupyter_kernel std false)
        ++ "\x27 > " ++ kernel_path ++ "/kernel.json",
      "jupyter-kernelspec install " ++ user_install_arg ++ kernel_path ],
    kernel_path )

/-- One cling-cuda registration block of `build_rel_jupyter_kernel`
(third loop, `gen_cling_jupyter_kernel(std, True)`). -/
def rel_block_cling_cuda (c : XCC_Config) (user_install_arg : String)
    (std : Nat) : List String × String :=
  let kernel_path := c.build_pfx ++ "/cling-cpp" ++ toString std ++ "-cuda"
  ( [ "", jupyterBanner,
      pyLJust 28 ("#// Jupyter Kernel: Cling " ++ toString std ++ " cuda") ++ "//",
      jupyterBanner,
      "mkdir -p " ++ kernel_path,
      "echo \x27" ++ dumpsKernel (gen_cling_jupyter_kernel std true)
        ++ "\x27 > " ++ kernel_path ++ "/kernel.json",
      "jupyter-kernelspec install " ++ user_install_arg ++ kernel_path ],
    kernel_path )

/-- One loop iteration of `build_rel_jupyter_kernel`: emit the block and,
when `keep_build` is false, book the kernel path for deletion. -/
def rel_kernel_step (block : XCC_Config → String → Nat → List String × String)
    (user_install_arg : String) (acc : List String × XCC_Config) (std : Nat) :
    List String × XCC_Config :=
  let bc := block acc.2 user_install_arg std
  ( acc.1 ++ bc.1,
    { acc.2 with paths_to_delete := acc.2.paths_to_delete
        ++ (if acc.2.keep_build then [] else [bc.2]) } )

/-- `xcc/jupyter.py`, `build_rel_jupyter_kernel`: three loops over the
standards `[11, 14, 17]` — xeus-cling-cuda, bare cling, cling-cuda —
each appending its registration block and booking its kernel path. -/
def build_rel_jupyter_kernel (config : XCC_Config) (user_install : Bool) :
    List String × XCC_Config :=
  let user_install_arg := if user_install then "--user " else ""
  let a1 := [11, 14, 17].foldl (rel_kernel_step rel_block_xeus user_install_arg)
    ([], config)
  let a2 := [11, 14, 17].foldl (rel_kernel_step rel_block_cling user_install_arg) a1
  [11, 14, 17].foldl (rel_kernel_step rel_block_cling_cuda user_install_arg) a2

/-- The nine registration blocks of `build_rel_jupyter_kernel` in emission
order: xeus-cling-cuda, bare cling, cling-cuda, each for standards 11,
14, 17.  (The loops only ever mutate `paths_to_delete`, which no block
reads, so the blocks may be stated against the initial config.) -/
def relJupyterBlocks (config : XCC_Config) (user_install_arg : String) :
    List (List String) :=
  [11, 14, 17].map (fun s => (rel_block_xeus config user_install_arg s).1)
    ++ [11, 14, 17].map (fun s => (rel_block_cling config user_install_arg s).1)
    ++ [11, 14, 17].map (fun s => (rel_block_cling_cuda config user_install_arg s).1)

/-! ## `xcc/generator.py`: project registry and stage compositions -/

/-- One stage-level instruction (hpccm primitives and building blocks, an
opaque external renderer).  Literal command strings inside a
`shell(commands=[...])` are wrapped as `Cmd.raw`. -/
inductive StageInstr where
  | baseimage (image : String) (asStage : String)
  | label (metadata : List (String × String))
  | environment (vars : List (String × String))
  | packages (ospackages : List String)
  | shell (commands : List Cmd)
  | llvm (version : String)
  | cmake (eula : Bool) (version : String)
  | rawDocker (docker : String)
  | copy (fromStage : Option String) (src : String) (dest : String)
deriving Repr, DecidableEq

/-- A stage is its ordered instruction list. -/
abbrev Stage := List StageInstr

/-- One entry of `XCC_gen.project_list`: a name, the tag selecting the
generator, and the tag-specific fields. -/
structure Project where
  name : String
  tag : String
  url : Option String
  branch : Option String
  opts : List String
deriving Repr, DecidableEq

/-- `xcc/generator.py`, method `XCC_gen.add_libcxx_cmake_arg` (the class
version, distinct from the helper): append the libc++ flag when the
generator's `build_libcxx` is truthy. -/
def gen_add_libcxx_cmake_arg (build_libcxx : Option Bool)
    (inputlist : List String) : List String :=
  if optBoolTruthy build_libcxx then inputlist ++ [libcxxDefaultArg]
  else inputlist

/-- `XCC_gen.add_git_cmake_entry`: a registry entry with tag `git_cmake`. -/
def add_git_cmake_entry (build_libcxx : Option Bool) (name url branch : String)
    (opts : List String) : Project :=
  { name := name, tag := "git_cmake", url := some url, branch := some branch,
    opts := gen_add_libcxx_cmake_arg build_libcxx opts }

/-- `XCC_gen.__init__`: the ordered project registry (miniconda, cling,
openssl, the git+cmake dependencies, xeus-cling, the jupyter kernels,
xproperty, xwidgets). -/
def xcc_project_list (build_type : String) (build_libcxx : Option Bool) :
    List Project :=
  [ { name := "miniconda3", tag := "miniconda", url := none, branch := none,
      opts := [] },
    { name := "cling", tag := "cling", url := none, branch := none, opts := [] },
    { name := "openssl", tag := "openssl", url := none, branch := none,
      opts := [] },
    add_git_cmake_entry build_libcxx "libzmq" "https://github.com/zeromq/libzmq.git"
      "v4.2.5" [ "-DWITH_PERF_TOOL=OFF", "-DZMQ_BUILD_TESTS=OFF",
        "-DENABLE_CPACK=OFF", "-DCMAKE_BUILD_TYPE=" ++ build_type ],
    add_git_cmake_entry build_libcxx "cppzmq" "https://github.com/zeromq/cppzmq.git"
      "v4.3.0" ["-DCMAKE_BUILD_TYPE=" ++ build_type],
    add_git_cmake_entry build_libcxx "nlohmann_json"
      "https://github.com/nlohmann/json.git" "v3.7.0"
      ["-DCMAKE_BUILD_TYPE=" ++ build_type],
    add_git_cmake_entry build_libcxx "xtl" "https://github.com/QuantStack/xtl.git"
      "0.6.9" ["-DCMAKE_BUILD_TYPE=" ++ build_type],
    add_git_cmake_entry build_libcxx "xeus" "https://github.com/QuantStack/xeus.git"
      "0.23.3" [ "-DBUILD_EXAMPLES=OFF", "-DDISABLE_ARCH_NATIVE=ON",
        "-DCMAKE_BUILD_TYPE=" ++ build_type ],
    add_git_cmake_entry build_libcxx "pugixml" "https://github.com/zeux/pugixml.git"
      "v1.8.1" [ "-DCMAKE_BUILD_TYPE=" ++ build_type,
        "-DCMAKE_POSITION_INDEPENDENT_CODE=ON" ],
    add_git_cmake_entry build_libcxx "cxxopts"
      "https://github.com/jarro2783/cxxopts.git" "v2.2.0"
      ["-DCMAKE_BUILD_TYPE=" ++ build_type],
    { name := "xeus-cling", tag := "xeus-cling",
      url := some "https://github.com/QuantStack/xeus-cling.git",
      branch := some "0.8.0", opts := [] },
    { name := "jupyter_kernel", tag := "jupyter_kernel", url := none,
      branch := none, opts := [] },
    add_git_cmake_entry build_libcxx "xproperty"
      "https://github.com/QuantStack/xproperty.git" "0.8.1"
      ["-DCMAKE_BUILD_TYPE=" ++ build_type],
    add_git_cmake_entry build_libcxx "xwidgets"
      "https://github.com/QuantStack/xwidgets.git" "0.19.0"
      ["-DCMAKE_BUILD_TYPE=" ++ build_type] ]

/-- `xcc/generator.py`, class `XCC_gen`: the generator state after
`__init__` (`build_pfx`/`install_pfx` model `build_prefix` and
`install_prefix`). -/
structure XCC_gen where
  container : String
  build_pfx : String
  install_pfx : String
  build_type : String
  threads : Option Int
  linker_threads : Option Int
  build_libcxx : Option Bool
  config : XCC_Config
  clang_version : Int
  gen_args : Option String
  cling_url : String
  cling_branch : Option String
  cling_hash : Option String
  project_list : List Project
deriving Repr, DecidableEq

/-- `XCC_gen.__init__`: builds the config (only `keep_build` is passed
through; everything else takes the `XCC_Config` defaults), validates
`clang_version`, fixes the cling source (url, no branch, hash `595580b`)
and assembles the registry. -/
def XCC_gen.init (container build_pfx install_pfx build_type : String)
    (keep_build : Bool) (threads linker_threads : Option Int)
    (clang_version : Int) (gen_args : Option String)
    (build_libcxx : Option Bool) : Except String XCC_gen :=
  match XCC_Config.init "singularity" "/tmp" "/usr/local" "RELEASE" ""
      keep_build (some 1) (some 1) false 8 "" with
  | .error e => .error e
  | .ok config =>
    if ¬ supported_clang_version.contains clang_version then
      .error ("Clang version " ++ toString clang_version
        ++ " is not supported\n" ++ "Supported versions: 8, 9")
    else
      .ok { container := container, build_pfx := build_pfx,
            install_pfx := install_pfx, build_type := build_type,
            threads := threads, linker_threads := linker_threads,
            build_libcxx := build_libcxx, config := config,
            clang_version := clang_version, gen_args := gen_args,
            cling_url := "https://github.com/root-project/cling.git",
            cling_branch := none, cling_hash := some "595580b",
            project_list := xcc_project_list build_type build_libcxx }

/-- `XCC_gen.__gen_base_stage`: the CUDA base image with labels,
environment, OS packages, locale setup, the clang/llvm toolchain, cmake
and ninja. -/
def gen_base_stage (g : XCC_gen) : Stage :=
  [ .baseimage "nvidia/cuda:8.0-devel-ubuntu16.04" "stage0",
    .label [("XCC Version", "2.3"), ("Author", "Simeon Ehrig"),
            ("E-Mail", "s.ehrig@hzdr.de")] ]
  ++ (match g.gen_args with
      | some a => if a ≠ "" then
          [StageInstr.environment [("XCC_GEN_ARGS", "\"" ++ a ++ "\"")]] else []
      | none => [])
  ++ [ .environment [("LD_LIBRARY_PATH", "$LD_LIBRARY_PATH:/usr/local/cuda/lib64")],
       .environment [("CMAKE_PREFIX_PATH", g.install_pfx)],
       .packages ["git", "python", "wget", "pkg-config", "uuid-dev", "gdb",
         "locales", "locales-all", "unzip"],
       .shell [.raw "locale-gen en_US.UTF-8", .raw "update-locale LANG=en_US.UTF-8"],
       .shell [ .raw "wget http://llvm.org/apt/llvm-snapshot.gpg.key",
         .raw "apt-key add llvm-snapshot.gpg.key",
         .raw "rm llvm-snapshot.gpg.key",
         .raw "echo \"\" >> /etc/apt/sources.list",
         .raw ("echo \"deb http://apt.llvm.org/xenial/ llvm-toolchain-xenial-"
           ++ toString g.clang_version ++ " main\" >> /etc/apt/sources.list"),
         .raw ("echo \"deb-src http://apt.llvm.org/xenial/ llvm-toolchain-xenial-"
           ++ toString g.clang_version ++ " main\" >> /etc/apt/sources.list") ],
       .llvm (toString g.clang_version),
       .shell [ .raw ("export CC=clang-" ++ toString g.clang_version),
         .raw ("export CXX=clang++-" ++ toString g.clang_version) ],
       .packages (["clang-tidy-" ++ toString g.clang_version,
           "clang-tools-" ++ toString g.clang_version]
         ++ (if optBoolTruthy g.build_libcxx then
             [ "libc++1-" ++ toString g.clang_version,
               "libc++-" ++ toString g.clang_version ++ "-dev",
               "libc++abi1-" ++ toString g.clang_version,
               "libc++abi-" ++ toString g.clang_version ++ "-dev" ] else [])),
       .cmake true "3.15.2" ]
  ++ (if g.container = "singularity" then
        [StageInstr.shell [.raw "mkdir -p /run/user", .raw "chmod 777 /run/user"]]
      else [])
  ++ [ .shell [ .raw "cd /opt",
         .raw "wget https://github.com/ninja-build/ninja/releases/download/v1.9.0/ninja-linux.zip",
         .raw "unzip ninja-linux.zip", .raw "mv ninja /usr/local/bin/",
         .raw "rm ninja-linux.zip", .raw "cd -" ] ]

/-- One dispatch step of `XCC_gen.__gen_project_builds` for project `p`.
The source calls `build_miniconda`, `build_git_and_cmake` and
`build_rel_jupyter_kernel` with keyword arguments (`build_prefix`,
`install_prefix`, `threads`, `miniconda_prefix`) that those functions'
signatures do not accept, so Python raises a `TypeError` at those call
sites; the `cling`, `xeus-cling` and `openssl` calls match their
signatures.  The `xeus-cling` call passes `cling_path=self.install_prefix`
— a plain string — which the callee indexes, so it is modelled as the
list of its one-character strings (Python string indexing). -/
def gen_project_build_step (g : XCC_gen) (exclude_list : List String)
    (acc : Stage × XCC_Config) (p : Project) :
    Except String (Stage × XCC_Config) :=
  let stage := acc.1
  let config := acc.2
  if p.tag = "cling" then
    if exclude_list.contains "cling" then .ok acc
    else
      let r := build_cling g.build_pfx g.install_pfx "/opt/miniconda3"
        g.build_type g.cling_url config none g.cling_branch g.cling_hash
        g.threads g.linker_threads none ["--depth=1"] g.build_libcxx
      .ok (stage ++ [.shell r.1], r.2.2)
  else if p.tag = "xeus-cling" then
    if exclude_list.contains "xeus-cling" then .ok acc
    else
      match build_xeus_cling g.build_pfx g.build_type (p.url.getD "")
          (p.branch.getD "") g.threads config "/opt/miniconda3"
          (g.install_pfx.data.map (fun ch => String.mk [ch])) none none
          g.build_libcxx with
      | .error e => .error e
      | .ok r => .ok (stage ++ [.shell r.1], r.2)
  else if p.tag = "git_cmake" then
    if exclude_list.contains p.name then .ok acc
    else
      .error "TypeError: build_git_and_cmake() got an unexpected keyword argument \x27build_prefix\x27"
  else if p.tag = "openssl" then
    if exclude_list.contains "openssl" then .ok acc
    else
      let r := build_openssl "openssl-1.1.1c" g.build_pfx g.install_pfx
        g.threads config
      .ok (stage ++ [.shell r.1, .environment r.2.1], r.2.2)
  else if p.tag = "miniconda" then
    if exclude_list.contains "miniconda" then .ok acc
    else
      .error "TypeError: build_miniconda() got an unexpected keyword argument \x27build_prefix\x27"
  else if p.tag = "jupyter_kernel" then
    if exclude_list.contains "jupyter_kernel" then .ok acc
    else
      .error "TypeError: build_rel_jupyter_kernel() got an unexpected keyword argument \x27build_prefix\x27"
  else
    .error ("unknown tag: " ++ p.tag)

/-- `XCC_gen.__gen_project_builds`: fold the dispatch over the registry,
stopping at the first raised error. -/
def gen_project_builds (g : XCC_gen) (stage : Stage)
    (exclude_list : List String) : Except String (Stage × XCC_Config) :=
  g.project_list.foldlM (gen_project_build_step g exclude_list) (stage, g.config)

/-- The guard of `XCC_gen.gen_release_multi_stages` (lines 389-396): the
install root must be `/tmp` or `/opt`.  The message concatenation follows
the source, which omits a space between `install_prefix` and `must`. -/
def multiStageGuardMsg (install_pfx : String) : String :=
  "multi stage release container: install_prefix" ++ "must start with /tmp or /opt\n"
    ++ "Your path: " ++ install_pfx

/-- `XCC_gen.gen_release_multi_stages`: raise `ValueError` before anything
else when `install_prefix` starts with neither `/tmp` nor `/opt`; only
then build stage0 (base stage plus all project builds except the jupyter
kernels) and the copy-only stage1.  Assembling stage1 reaches the
`build_rel_jupyter_kernel(build_prefix=..., miniconda_prefix=...)` call,
whose keyword arguments the callee does not accept, so that branch ends
in the `TypeError` Python would raise there. -/
def gen_release_multi_stages (g : XCC_gen) : Except String (List Stage) :=
  if ¬ (pyStartsWith g.install_pfx "/tmp") ∧ ¬ (pyStartsWith g.install_pfx "/opt") then
    .error (multiStageGuardMsg g.install_pfx)
  else
    match gen_project_builds g (gen_base_stage g) ["jupyter_kernel"] with
    | .error e => .error e
    | .ok _ =>
      .error "TypeError: build_rel_jupyter_kernel() got an unexpected keyword argument \x27build_prefix\x27"

/-! ## Concrete fixtures and small observers used by the theorems -/

/-- A valid configuration with the constructor defaults and
`keep_build = false` (the `XCC_Config.__init__` defaults:
singularity, `/tmp`, `/usr/local`, RELEASE, one thread each, clang 8). -/
def cfg0 : XCC_Config :=
  { container := "singularity", build_pfx := "/tmp",
    install_pfx := "/usr/local", build_type := "RELEASE",
    second_build_type := "", keep_build := false, paths_to_delete := [],
    compiler_threads := some 1, linker_threads := some 1,
    build_libcxx := false, clang_version := 8, gen_args := "" }

/-- `cfg0` with both thread counts unset (`None`). -/
def cfgNoneThreads : XCC_Config :=
  { cfg0 with compiler_threads := none, linker_threads := none }

/-- `cfg0` with both thread counts set to `0` ("use all cores"). -/
def cfgZeroThreads : XCC_Config :=
  { cfg0 with compiler_threads := some 0, linker_threads := some 0 }

/-- `cfg0` with clang version 9 (the other supported version). -/
def cfgClang9 : XCC_Config := { cfg0 with clang_version := 9 }

/-- Is the command a cmake build step? -/
def isBuildStep : Cmd → Bool
  | .buildStep _ _ => true
  | _ => false

/-- Is the command a literal shell assignment to `PATH`? -/
def isPATHassign : Cmd → Bool
  | .raw s => pyStartsWith s "PATH="
  | _ => false

/-- The commands strictly after the last build step of the list (the
whole list when it has no build step). -/
def afterLastBuild (cmds : List Cmd) : List Cmd :=
  (cmds.reverse.takeWhile (fun c => ¬ isBuildStep c)).reverse

/-! ## Helper lemmas -/

theorem digitChar_ne_dollar (n : Nat) : Nat.digitChar n ≠ '$' := by
  rcases Nat.lt_or_ge n 16 with h | h
  · interval_cases n <;> decide
  · have h0 : ¬ n = 0 := by omega
    have h1 : ¬ n = 1 := by omega
    have h2 : ¬ n = 2 := by omega
    have h3 : ¬ n = 3 := by omega
    have h4 : ¬ n = 4 := by omega
    have h5 : ¬ n = 5 := by omega
    have h6 : ¬ n = 6 := by omega
    have h7 : ¬ n = 7 := by omega
    have h8 : ¬ n = 8 := by omega
    have h9 : ¬ n = 9 := by omega
    have h10 : ¬ n = 10 := by omega
    have h11 : ¬ n = 11 := by omega
    have h12 : ¬ n = 12 := by omega
    have h13 : ¬ n = 13 := by omega
    have h14 : ¬ n = 14 := by omega
    have h15 : ¬ n = 15 := by omega
    simp only [Nat.digitChar, h0, h1, h2, h3, h4, h5, h6, h7, h8, h9, h10, h11,
      h12, h13, h14, h15, if_false]
    decide

theorem toDigitsCore_ne_dollar :
    ∀ (f n : Nat) (l : List Char), (∀ c ∈ l, c ≠ '$') →
      ∀ c ∈ Nat.toDigitsCore 10 f n l, c ≠ '$' := by
  intro f
  induction f with
  | zero => intro n l hl c hc; exact hl c hc
  | succ f ih =>
    intro n l hl c hc
    simp only [Nat.toDigitsCore] at hc
    have hcons : ∀ c ∈ Nat.digitChar (n % 10) :: l, c ≠ '$' := by
      intro c' hc'
      rcases List.mem_cons.mp hc' with h | h
      · subst h; exact digitChar_ne_dollar _
      · exact hl c' h
    split at hc
    · exact hcons c hc
    · exact ih _ _ hcons c hc

theorem natRepr_ne_nproc (m : Nat) : Nat.repr m ≠ "$(nproc)" := by
  intro h
  have hd : Nat.toDigits 10 m = "$(nproc)".data := congrArg String.data h
  have hmem : '$' ∈ Nat.toDigits 10 m := by rw [hd]; decide
  exact toDigitsCore_ne_dollar _ _ [] (by simp) '$' hmem rfl

theorem intToString_ne_nproc (n : Int) : toString n ≠ "$(nproc)" := by
  show Int.repr n ≠ "$(nproc)"
  cases n with
  | ofNat m => exact natRepr_ne_nproc m
  | negSucc m =>
    intro h
    have hd := congrArg String.data h
    simp only [Int.repr, String.data_append] at hd
    exact absurd (List.head_eq_of_cons_eq hd) (by decide)

theorem compiler_threads_snd_fields (c : XCC_Config) :
    (c.get_cmake_compiler_threads).2.paths_to_delete = c.paths_to_delete
    ∧ (c.get_cmake_compiler_threads).2.keep_build = c.keep_build
    ∧ (c.get_cmake_compiler_threads).2.build_pfx = c.build_pfx := by
  unfold XCC_Config.get_cmake_compiler_threads
  cases c.compiler_threads <;> exact ⟨rfl, rfl, rfl⟩

theorem add_libcxx_no_match :
    ∀ l : List String, (∀ e ∈ l, pyStartsWith e libcxxFlagMarker = false) →
      add_libcxx_cmake_arg l = l ++ [libcxxDefaultArg] := by
  intro l
  induction l with
  | nil => intro _; rfl
  | cons e rest ih =>
    intro h
    have he : pyStartsWith e libcxxFlagMarker = false := h e (List.mem_cons_self e rest)
    simp only [add_libcxx_cmake_arg, he, Bool.false_eq_true, if_false,
      List.cons_append, List.cons.injEq, true_and]
    exact ih (fun x hx => h x (List.mem_cons_of_mem e hx))

theorem add_libcxx_first_match :
    ∀ (l1 : List String) (e : String) (l2 : List String),
      (∀ x ∈ l1, pyStartsWith x libcxxFlagMarker = false) →
      pyStartsWith e libcxxFlagMarker = true →
      add_libcxx_cmake_arg (l1 ++ e :: l2)
        = l1 ++ (e.dropRight 1 ++ " -stdlib=libc++\"") :: l2 := by
  intro l1
  induction l1 with
  | nil =>
    intro e l2 _ he
    simp only [List.nil_append, add_libcxx_cmake_arg, he, if_true]
  | cons x rest ih =>
    intro e l2 h1 he
    have hx : pyStartsWith x libcxxFlagMarker = false := h1 x (List.mem_cons_self x rest)
    simp only [List.cons_append, add_libcxx_cmake_arg, hx, Bool.false_eq_true,
      if_false, List.cons.injEq, true_and]
    exact ih e l2 (fun y hy => h1 y (List.mem_cons_of_mem x hy)) he

/-! ## Claim theorems -/

/-- C2 (corrected): `get_cmake_compiler_threads` returns `"$(nproc)"` iff
`compiler_threads` is unset (`None`) or zero, and the explicit count as a
string otherwise.  `get_cmake_linker_threads`, when `linker_threads` is
unset or zero, returns the TEXT of the raw `compiler_threads` field
(`str(self.compiler_threads)`), which coincides with
`get_cmake_compiler_threads`'s value only when `compiler_threads` is a
nonzero count; with an explicit nonzero `linker_threads` it returns its
own count. -/
theorem claim_C2_prop (c : XCC_Config) :
    ((c.get_cmake_compiler_threads).1 = "$(nproc)" ↔
      (c.compiler_threads = none ∨ c.compiler_threads = some 0))
  ∧ (∀ n : Int, c.compiler_threads = some n → n ≠ 0 →
      (c.get_cmake_compiler_threads).1 = toString n)
  ∧ ((c.linker_threads = none ∨ c.linker_threads = some 0) →
      (c.get_cmake_linker_threads).1 = pyStrOptInt c.compiler_threads)
  ∧ (∀ n : Int, c.linker_threads = some n → n ≠ 0 →
      (c.get_cmake_linker_threads).1 = toString n)
  ∧ (∀ n : Int, c.compiler_threads = some n → n ≠ 0 →
      (c.linker_threads = none ∨ c.linker_threads = some 0) →
      (c.get_cmake_linker_threads).1 = (c.get_cmake_compiler_threads).1) := by
  refine ⟨?_, ?_, ?_, ?_, ?_⟩
  · constructor
    · intro h
      unfold XCC_Config.get_cmake_compiler_threads at h
      cases hc : c.compiler_threads with
      | none => exact Or.inl rfl
      | some n =>
        rw [hc] at h
        by_cases hn : n = 0
        · exact Or.inr (by rw [hn])
        · simp only [hn, if_false] at h
          exact absurd h (intToString_ne_nproc n)
    · intro h
      unfold XCC_Config.get_cmake_compiler_threads
      rcases h with h | h
      · rw [h]
      · rw [h]
        rfl
  · intro n hn hne
    unfold XCC_Config.get_cmake_compiler_threads
    rw [hn]
    simp [hne]
  · intro h
    unfold XCC_Config.get_cmake_linker_threads
    rcases h with h | h
    · rw [h]
    · rw [h]
      rfl
  · intro n hn hne
    unfold XCC_Config.get_cmake_linker_threads
    rw [hn]
    simp [hne]
  · intro n hcn hne hl
    unfold XCC_Config.get_cmake_linker_threads XCC_Config.get_cmake_compiler_threads
    rcases hl with h | h <;> rw [h, hcn] <;> simp [hne, pyStrOptInt]

/-- C2 witness: at the default config (`compiler_threads = linker_threads
= 1`) the compiler accessor does not return the token and both accessors
return `"1"`. -/
theorem claim_C2_witness :
    (cfg0.compiler_threads = some 1 ∧ (1 : Int) ≠ 0 ∧
      (cfg0.get_cmake_compiler_threads).1 = toString (1 : Int))
  ∧ (cfg0.linker_threads = some 1 ∧
      (cfg0.get_cmake_linker_threads).1 = toString (1 : Int)) :=
  ⟨⟨by decide, by decide, (claim_C2_prop cfg0).2.1 1 (by decide) (by decide)⟩,
   ⟨by decide, (claim_C2_prop cfg0).2.2.2.1 1 (by decide) (by decide)⟩⟩

/-- C2 counterexample: with `compiler_threads = 0` and `linker_threads =
0` the linker accessor returns `"0"` while the compiler accessor returns
`"$(nproc)"` — the claimed "same value as get_cmake_compiler_threads()
whenever linker_threads is unset or zero" fails. -/
theorem claim_C2_counterexample :
    cfgZeroThreads.linker_threads = some 0
    ∧ (cfgZeroThreads.get_cmake_linker_threads).1 = "0"
    ∧ (cfgZeroThreads.get_cmake_compiler_threads).1 = "$(nproc)"
    ∧ (cfgZeroThreads.get_cmake_linker_threads).1
        ≠ (cfgZeroThreads.get_cmake_compiler_threads).1 := by
  refine ⟨rfl, rfl, rfl, ?_⟩
  decide

/-- C3 (code bug): `get_copy` re-runs the constructor without passing
`clang_version`, so the copy of a clang-9 config silently carries the
default clang version 8 — not a copy "equal in every field" (the method's
own docstring promises a deepcopy). -/
theorem claim_C3_prop :
    cfgClang9.clang_version = 9
    ∧ cfgClang9.get_copy = .ok { cfgClang9 with clang_version := 8 }
    ∧ ({ cfgClang9 with clang_version := 8 } : XCC_Config).clang_version
        ≠ cfgClang9.clang_version := by
  refine ⟨rfl, ?_, by decide⟩
  rfl

/-- C10 (confirmed): `get_cmake_compiler_threads` sets a `None`
`compiler_threads` to `0` and otherwise leaves the config untouched;
`get_cmake_linker_threads` does the same for `linker_threads`; neither
call changes any other field. -/
theorem claim_C10_prop (c : XCC_Config) :
    ((c.compiler_threads = none →
        (c.get_cmake_compiler_threads).2 = { c with compiler_threads := some 0 })
     ∧ (∀ n, c.compiler_threads = some n → (c.get_cmake_compiler_threads).2 = c)
     ∧ (c.get_cmake_compiler_threads).2.container = c.container
     ∧ (c.get_cmake_compiler_threads).2.build_pfx = c.build_pfx
     ∧ (c.get_cmake_compiler_threads).2.install_pfx = c.install_pfx
     ∧ (c.get_cmake_compiler_threads).2.build_type = c.build_type
     ∧ (c.get_cmake_compiler_threads).2.second_build_type = c.second_build_type
     ∧ (c.get_cmake_compiler_threads).2.keep_build = c.keep_build
     ∧ (c.get_cmake_compiler_threads).2.paths_to_delete = c.paths_to_delete
     ∧ (c.get_cmake_compiler_threads).2.linker_threads = c.linker_threads
     ∧ (c.get_cmake_compiler_threads).2.build_libcxx = c.build_libcxx
     ∧ (c.get_cmake_compiler_threads).2.clang_version = c.clang_version
     ∧ (c.get_cmake_compiler_threads).2.gen_args = c.gen_args)
  ∧ ((c.linker_threads = none →
        (c.get_cmake_linker_threads).2 = { c with linker_threads := some 0 })
     ∧ (∀ n, c.linker_threads = some n → (c.get_cmake_linker_threads).2 = c)
     ∧ (c.get_cmake_linker_threads).2.container = c.container
     ∧ (c.get_cmake_linker_threads).2.build_pfx = c.build_pfx
     ∧ (c.get_cmake_linker_threads).2.install_pfx = c.install_pfx
     ∧ (c.get_cmake_linker_threads).2.build_type = c.build_type
     ∧ (c.get_cmake_linker_threads).2.second_build_type = c.second_build_type
     ∧ (c.get_cmake_linker_threads).2.keep_build = c.keep_build
     ∧ (c.get_cmake_linker_threads).2.paths_to_delete = c.paths_to_delete
     ∧ (c.get_cmake_linker_threads).2.compiler_threads = c.compiler_threads
     ∧ (c.get_cmake_linker_threads).2.build_libcxx = c.build_libcxx
     ∧ (c.get_cmake_linker_threads).2.clang_version = c.clang_version
     ∧ (c.get_cmake_linker_threads).2.gen_args = c.gen_args) := by
  have key1 : (c.get_cmake_compiler_threads).2
      = (match c.compiler_threads with
         | none => { c with compiler_threads := some 0 }
         | some _ => c) := by
    unfold XCC_Config.get_cmake_compiler_threads
    cases c.compiler_threads <;> rfl
  have key2 : (c.get_cmake_linker_threads).2
      = (match c.linker_threads with
         | none => { c with linker_threads := some 0 }
         | some _ => c) := by
    unfold XCC_Config.get_cmake_linker_threads
    cases c.linker_threads <;> rfl
  rw [key1, key2]
  constructor
  · cases c.compiler_threads with
    | none =>
      refine ⟨fun _ => rfl, fun n h => ?_, rfl, rfl, rfl, rfl, rfl, rfl, rfl,
        rfl, rfl, rfl, rfl⟩
      exact Option.noConfusion h
    | some m =>
      refine ⟨fun h => ?_, fun n _ => rfl, rfl, rfl, rfl, rfl, rfl, rfl, rfl,
        rfl, rfl, rfl, rfl⟩
      exact Option.noConfusion h
  · cases c.linker_threads with
    | none =>
      refine ⟨fun _ => rfl, fun n h => ?_, rfl, rfl, rfl, rfl, rfl, rfl, rfl,
        rfl, rfl, rfl, rfl⟩
      exact Option.noConfusion h
    | some m =>
      refine ⟨fun h => ?_, fun n _ => rfl, rfl, rfl, rfl, rfl, rfl, rfl, rfl,
        rfl, rfl, rfl, rfl⟩
      exact Option.noConfusion h

/-- C10 witness: on a config with both thread fields `None`, each accessor
sets its own field to `0`. -/
theorem claim_C10_witness :
    (cfgNoneThreads.get_cmake_compiler_threads).2
      = { cfgNoneThreads with compiler_threads := some 0 }
    ∧ (cfgNoneThreads.get_cmake_linker_threads).2
      = { cfgNoneThreads with linker_threads := some 0 } :=
  ⟨(claim_C10_prop cfgNoneThreads).1.1 rfl,
   (claim_C10_prop cfgNoneThreads).2.1 rfl⟩

/-- C1 (corrected): with `keep_build = false`, `build_git_and_cmake`
appends exactly two new entries to `paths_to_delete` — the build dir
`build_prefix/<name>_build` first, then the source dir
`build_prefix/<name>` — but the instruction list it RETURNS has exactly 2
entries, a comment heading and a single shell step; the clone, configure
and build+install steps are the 3 entries, in that order, of that shell
step's command list. -/
theorem claim_C1_prop (name url branch : String) (config : XCC_Config)
    (opts : List String) (hk : config.keep_build = false) :
    (build_git_and_cmake name url branch config opts).2.paths_to_delete
      = config.paths_to_delete
        ++ [config.build_pfx ++ "/" ++ name ++ "_build",
            config.build_pfx ++ "/" ++ name]
    ∧ (build_git_and_cmake name url branch config opts).1.length = 2
    ∧ (build_git_and_cmake name url branch config opts).1
      = [ add_comment_heading ("Build " ++ name),
          .shell
            [ .cloneStep url (some branch) none config.build_pfx (some name) [],
              .configureStep (config.build_pfx ++ "/" ++ name ++ "_build")
                (config.build_pfx ++ "/" ++ name) opts,
              .buildStep (some (config.get_cmake_compiler_threads).1) "install" ] ] := by
  obtain ⟨hp, hkb, _⟩ := compiler_threads_snd_fields config
  refine ⟨?_, rfl, rfl⟩
  show (config.get_cmake_compiler_threads).2.paths_to_delete
      ++ (if (config.get_cmake_compiler_threads).2.keep_build then []
          else [config.build_pfx ++ "/" ++ name ++ "_build",
                config.build_pfx ++ "/" ++ name]) = _
  rw [hp, hkb, hk]
  rfl

/-- C1 witness: the generic generator at `libzmq` on the default config
books `/tmp/libzmq_build` then `/tmp/libzmq` and returns the two-entry
instruction list. -/
theorem claim_C1_witness :
    (build_git_and_cmake "libzmq" "u" "b" cfg0 []).2.paths_to_delete
      = cfg0.paths_to_delete ++ ["/tmp" ++ "/" ++ "libzmq" ++ "_build", "/tmp" ++ "/" ++ "libzmq"]
    ∧ (build_git_and_cmake "libzmq" "u" "b" cfg0 []).1.length = 2
    ∧ (build_git_and_cmake "libzmq" "u" "b" cfg0 []).1
      = [ add_comment_heading ("Build " ++ "libzmq"),
          .shell
            [ .cloneStep "u" (some "b") none "/tmp" (some "libzmq") [],
              .configureStep ("/tmp" ++ "/" ++ "libzmq" ++ "_build")
                ("/tmp" ++ "/" ++ "libzmq") [],
              .buildStep (some (cfg0.get_cmake_compiler_threads).1) "install" ] ] :=
  claim_C1_prop "libzmq" "u" "b" cfg0 [] (by decide)

/-- C1 counterexample: the list `build_git_and_cmake` returns does not
have 3 entries — it has 2 (the 3 steps live inside its single shell
entry). -/
theorem claim_C1_counterexample :
    (build_git_and_cmake "libzmq" "u" "b" cfg0 []).1.length ≠ 3 := by
  decide

/-- C8 (confirmed): when an element starting with `-DCMAKE_CXX_FLAGS="`
is already present, `add_libcxx_cmake_arg` merges ` -stdlib=libc++` into
the first such element in place (list length unchanged — no second
compiler-flags entry is added); only when no such element exists does it
append the fresh `-DCMAKE_CXX_FLAGS="-stdlib=libc++"` option. -/
theorem claim_C8_prop (l : List String) :
    ((∀ e ∈ l, pyStartsWith e libcxxFlagMarker = false) →
      add_libcxx_cmake_arg l = l ++ [libcxxDefaultArg])
    ∧ (∀ (l1 : List String) (e : String) (l2 : List String),
        l = l1 ++ e :: l2 →
        (∀ x ∈ l1, pyStartsWith x libcxxFlagMarker = false) →
        pyStartsWith e libcxxFlagMarker = true →
        add_libcxx_cmake_arg l
            = l1 ++ (e.dropRight 1 ++ " -stdlib=libc++\"") :: l2
          ∧ (add_libcxx_cmake_arg l).length = l.length) := by
  refine ⟨add_libcxx_no_match l, ?_⟩
  intro l1 e l2 hl h1 he
  subst hl
  refine ⟨add_libcxx_first_match l1 e l2 h1 he, ?_⟩
  rw [add_libcxx_first_match l1 e l2 h1 he]
  simp

/-- C8 witness: a list without a flags option gets the fresh option
appended; a list whose only element is a flags option is rewritten in
place and keeps its length. -/
theorem claim_C8_witness :
    add_libcxx_cmake_arg ["-DFOO"] = ["-DFOO"] ++ [libcxxDefaultArg]
    ∧ (add_libcxx_cmake_arg ["-DCMAKE_CXX_FLAGS=\"-O2\""]
        = [] ++ (("-DCMAKE_CXX_FLAGS=\"-O2\"".dropRight 1 ++ " -stdlib=libc++\"") :: [])
      ∧ (add_libcxx_cmake_arg ["-DCMAKE_CXX_FLAGS=\"-O2\""]).length
          = (["-DCMAKE_CXX_FLAGS=\"-O2\""] : List String).length) :=
  ⟨(claim_C8_prop ["-DFOO"]).1 (by decide),
   (claim_C8_prop ["-DCMAKE_CXX_FLAGS=\"-O2\""]).2 [] "-DCMAKE_CXX_FLAGS=\"-O2\""
     [] rfl (by decide) (by decide)⟩

/-- C4 (confirmed): a dual-build interpreter-core call (`dual_build` set,
effective `keep_build` false) produces exactly 2 build variants whose
build and install dirs carry the lower-cased build-type suffixes
(`build_prefix/build_<type>`, `install_prefix/install_<type>`), and
appends exactly 3 entries to the cleanup list: the two build dirs plus a
single entry for the shared source tree `build_prefix/llvm`.
`get_cling_build` produces the same two suffixed variants when
`second_build_type` is set. -/
theorem claim_C4_prop (build_pfx install_pfx miniconda_pfx build_type
    cling_url : String) (config : XCC_Config) (force_keep_build : Option Bool)
    (cling_branch cling_hash : Option String)
    (threads linker_threads : Option Int) (git_cling_opts : List String)
    (build_libcxx : Option Bool) (d : String) (hd : d ≠ "")
    (hk : force_keep_build.getD config.keep_build = false) :
    cling_cm_builds build_pfx install_pfx build_type (some d)
      = [ { build_dir := build_pfx ++ "/build_" ++ pyLower build_type,
            install_dir := install_pfx ++ "/install_" ++ pyLower build_type,
            build_type := build_type },
          { build_dir := build_pfx ++ "/build_" ++ pyLower d,
            install_dir := install_pfx ++ "/install_" ++ pyLower d,
            build_type := pyLower d } ]
    ∧ (cling_cm_builds build_pfx install_pfx build_type (some d)).length = 2
    ∧ (build_cling build_pfx install_pfx miniconda_pfx build_type cling_url
        config force_keep_build cling_branch cling_hash threads linker_threads
        (some d) git_cling_opts build_libcxx).2.2.paths_to_delete
      = config.paths_to_delete
        ++ [ build_pfx ++ "/build_" ++ pyLower build_type,
             build_pfx ++ "/build_" ++ pyLower d,
             build_pfx ++ "/llvm" ]
    ∧ (build_cling build_pfx install_pfx miniconda_pfx build_type cling_url
        config force_keep_build cling_branch cling_hash threads linker_threads
        (some d) git_cling_opts build_libcxx).2.1
      = [ install_pfx ++ "/install_" ++ pyLower build_type,
          install_pfx ++ "/install_" ++ pyLower d ]
    ∧ (∀ c2 : XCC_Config, c2.second_build_type ≠ "" →
        c2.get_cling_build
          = [ { build_path := c2.build_pfx ++ "/build_" ++ pyLower c2.build_type,
                install_path := c2.install_pfx ++ "/install_" ++ pyLower c2.build_type,
                build_type := c2.build_type, cling_install_path := "" },
              { build_path := c2.build_pfx ++ "/build_" ++ pyLower c2.second_build_type,
                install_path := c2.install_pfx ++ "/install_" ++ pyLower c2.second_build_type,
                build_type := c2.second_build_type, cling_install_path := "" } ]
          ∧ c2.get_cling_build.length = 2) := by
  have htr : optStrTruthy (some d) = true := by
    simp [optStrTruthy, hd]
  have hbuilds : cling_cm_builds build_pfx install_pfx build_type (some d)
      = [ { build_dir := build_pfx ++ "/build_" ++ pyLower build_type,
            install_dir := install_pfx ++ "/install_" ++ pyLower build_type,
            build_type := build_type },
          { build_dir := build_pfx ++ "/build_" ++ pyLower d,
            install_dir := install_pfx ++ "/install_" ++ pyLower d,
            build_type := pyLower d } ] := by
    unfold cling_cm_builds
    rw [htr]
    simp [Option.getD]
  refine ⟨hbuilds, by rw [hbuilds]; rfl, ?_, ?_, ?_⟩
  · show config.paths_to_delete ++ _ = _
    rw [hk, hbuilds]
    rfl
  · show ((cling_cm_builds build_pfx install_pfx build_type (some d)).map
      (fun b => b.install_dir)) = _
    rw [hbuilds]
    rfl
  · intro c2 h2
    unfold XCC_Config.get_cling_build
    rw [if_neg h2]
    exact ⟨rfl, rfl⟩

/-- C4 witness: a RELEASE/DEBUG dual build on the default config books
`/tmp/build_release`, `/tmp/build_debug` and `/tmp/llvm`. -/
theorem claim_C4_witness :
    cling_cm_builds "/tmp" "/usr/local" "RELEASE" (some "DEBUG")
      = [ { build_dir := "/tmp" ++ "/build_" ++ pyLower "RELEASE",
            install_dir := "/usr/local" ++ "/install_" ++ pyLower "RELEASE",
            build_type := "RELEASE" },
          { build_dir := "/tmp" ++ "/build_" ++ pyLower "DEBUG",
            install_dir := "/usr/local" ++ "/install_" ++ pyLower "DEBUG",
            build_type := pyLower "DEBUG" } ]
    ∧ (cling_cm_builds "/tmp" "/usr/local" "RELEASE" (some "DEBUG")).length = 2
    ∧ (build_cling "/tmp" "/usr/local" "/opt/miniconda3" "RELEASE" "u" cfg0
        none none none none none (some "DEBUG") [] none).2.2.paths_to_delete
      = cfg0.paths_to_delete
        ++ [ "/tmp" ++ "/build_" ++ pyLower "RELEASE",
             "/tmp" ++ "/build_" ++ pyLower "DEBUG", "/tmp" ++ "/llvm" ]
    ∧ (build_cling "/tmp" "/usr/local" "/opt/miniconda3" "RELEASE" "u" cfg0
        none none none none none (some "DEBUG") [] none).2.1
      = [ "/usr/local" ++ "/install_" ++ pyLower "RELEASE",
          "/usr/local" ++ "/install_" ++ pyLower "DEBUG" ]
    ∧ (∀ c2 : XCC_Config, c2.second_build_type ≠ "" →
        c2.get_cling_build
          = [ { build_path := c2.build_pfx ++ "/build_" ++ pyLower c2.build_type,
                install_path := c2.install_pfx ++ "/install_" ++ pyLower c2.build_type,
                build_type := c2.build_type, cling_install_path := "" },
              { build_path := c2.build_pfx ++ "/build_" ++ pyLower c2.second_build_type,
                install_path := c2.install_pfx ++ "/install_" ++ pyLower c2.second_build_type,
                build_type := c2.second_build_type, cling_install_path := "" } ]
          ∧ c2.get_cling_build.length = 2) :=
  claim_C4_prop "/tmp" "/usr/local" "/opt/miniconda3" "RELEASE" "u" cfg0
    none none none none none [] none "DEBUG" (by decide) (by decide)

/-- C5 (corrected): `build_xeus_cling` backs PATH up once
(`bPATH=$PATH`); for each build variant `i` it sets PATH to the backup
with the matching cling install's bin dir APPENDED
(`PATH=$bPATH:/<cling_path[i]>/bin` — appended to the tail, not
prepended), then configures and builds, so variant `i` discovers cling
install `i` and the variants do not see each other's paths; no command
restores the original PATH after the final configure/build pair. -/
theorem claim_C5_prop (build_pfx build_type url branch : String)
    (threads : Option Int) (config : XCC_Config) (miniconda_path : String)
    (force_keep_build : Option Bool) (build_libcxx : Option Bool) :
    (∀ (p0 : String) (rest : List String) (second_build : Option String),
      optStrTruthy second_build = false →
      build_xeus_cling build_pfx build_type url branch threads config
          miniconda_path (p0 :: rest) force_keep_build second_build build_libcxx
        = .ok
          ( [ .cloneStep url (some branch) none build_pfx (some "xeus-cling") [],
              .raw "bPATH=$PATH",
              .raw ("PATH=$bPATH:/" ++ p0 ++ "/bin"),
              .configureStep (build_pfx ++ "/xeus-cling_build")
                (build_pfx ++ "/xeus-cling")
                (xeus_cmake_opts miniconda_path build_type p0 build_libcxx),
              .buildStep (threads.map toString) "install" ],
            { config with paths_to_delete := config.paths_to_delete
                ++ (if force_keep_build.getD config.keep_build then []
                    else [build_pfx ++ "/xeus-cling_build",
                          build_pfx ++ "/xeus-cling"]) } ))
    ∧ (∀ (p0 p1 : String) (rest : List String) (d : String), d ≠ "" →
      build_xeus_cling build_pfx build_type url branch threads config
          miniconda_path (p0 :: p1 :: rest) force_keep_build (some d) build_libcxx
        = .ok
          ( [ .cloneStep url (some branch) none build_pfx (some "xeus-cling") [],
              .raw "bPATH=$PATH",
              .raw ("PATH=$bPATH:/" ++ p0 ++ "/bin"),
              .configureStep (build_pfx ++ "/xeus-cling_build_" ++ pyLower build_type)
                (build_pfx ++ "/xeus-cling")
                (xeus_cmake_opts miniconda_path build_type p0 build_libcxx),
              .buildStep (threads.map toString) "install",
              .raw ("PATH=$bPATH:/" ++ p1 ++ "/bin"),
              .configureStep (build_pfx ++ "/xeus-cling_build_" ++ pyLower d)
                (build_pfx ++ "/xeus-cling")
                (xeus_cmake_opts miniconda_path build_type p1 build_libcxx),
              .buildStep (threads.map toString) "install" ],
            { config with paths_to_delete := config.paths_to_delete
                ++ (if force_keep_build.getD config.keep_build then []
                    else [build_pfx ++ "/xeus-cling_build_" ++ pyLower build_type,
                          build_pfx ++ "/xeus-cling_build_" ++ pyLower d,
                          build_pfx ++ "/xeus-cling"]) } )) := by
  constructor
  · intro p0 rest second_build hf
    have hb : xeus_cling_builds build_pfx build_type second_build
        = [build_pfx ++ "/xeus-cling_build"] := by
      unfold xeus_cling_builds
      rw [hf]
      rfl
    unfold build_xeus_cling
    rw [hb]
    rfl
  · intro p0 p1 rest d hd
    have htr : optStrTruthy (some d) = true := by simp [optStrTruthy, hd]
    have hb : xeus_cling_builds build_pfx build_type (some d)
        = [ build_pfx ++ "/xeus-cling_build_" ++ pyLower build_type,
            build_pfx ++ "/xeus-cling_build_" ++ pyLower d ] := by
      unfold xeus_cling_builds
      rw [htr]
      simp [Option.getD]
    unfold build_xeus_cling
    rw [hb]
    rfl

/-- C5 witness: both the single- and the dual-build shapes at concrete
inputs (the dual variant pairs cling path `i` with build `i`). -/
theorem claim_C5_witness :
    build_xeus_cling "/tmp" "RELEASE" "u" "b" none cfg0 "/opt/miniconda3"
        ["/opt/cling", "/opt/cling2"] none (some "DEBUG") none
      = .ok
        ( [ .cloneStep "u" (some "b") none "/tmp" (some "xeus-cling") [],
            .raw "bPATH=$PATH",
            .raw ("PATH=$bPATH:/" ++ "/opt/cling" ++ "/bin"),
            .configureStep ("/tmp" ++ "/xeus-cling_build_" ++ pyLower "RELEASE")
              ("/tmp" ++ "/xeus-cling")
              (xeus_cmake_opts "/opt/miniconda3" "RELEASE" "/opt/cling" none),
            .buildStep none "install",
            .raw ("PATH=$bPATH:/" ++ "/opt/cling2" ++ "/bin"),
            .configureStep ("/tmp" ++ "/xeus-cling_build_" ++ pyLower "DEBUG")
              ("/tmp" ++ "/xeus-cling")
              (xeus_cmake_opts "/opt/miniconda3" "RELEASE" "/opt/cling2" none),
            .buildStep none "install" ],
          { cfg0 with paths_to_delete := cfg0.paths_to_delete
              ++ (if (none : Option Bool).getD cfg0.keep_build then []
                  else ["/tmp" ++ "/xeus-cling_build_" ++ pyLower "RELEASE",
                        "/tmp" ++ "/xeus-cling_build_" ++ pyLower "DEBUG",
                        "/tmp" ++ "/xeus-cling"]) } ) :=
  (claim_C5_prop "/tmp" "RELEASE" "u" "b" none cfg0 "/opt/miniconda3"
    none none).2 "/opt/cling" "/opt/cling2" [] "DEBUG" (by decide)

/-- C5 counterexample: at a concrete single-variant call the emitted
sequence sets `PATH=$bPATH://opt/cling/bin` — the cling bin dir is
appended after the backed-up PATH, not prepended — this is the only PATH
assignment, no command follows the last build step, and the prepend-form
command the claim describes does not occur: the original PATH is never
restored afterwards. -/
theorem claim_C5_counterexample :
    build_xeus_cling "/tmp" "RELEASE" "u" "b" none cfg0 "/opt/miniconda3"
        ["/opt/cling"] none none none
      = .ok
        ( [ .cloneStep "u" (some "b") none "/tmp" (some "xeus-cling") [],
            .raw "bPATH=$PATH",
            .raw "PATH=$bPATH://opt/cling/bin",
            .configureStep "/tmp/xeus-cling_build" "/tmp/xeus-cling"
              (xeus_cmake_opts "/opt/miniconda3" "RELEASE" "/opt/cling" none),
            .buildStep none "install" ],
          { cfg0 with paths_to_delete :=
              ["/tmp/xeus-cling_build", "/tmp/xeus-cling"] } )
    ∧ afterLastBuild
        [ .cloneStep "u" (some "b") none "/tmp" (some "xeus-cling") [],
          .raw "bPATH=$PATH",
          .raw "PATH=$bPATH://opt/cling/bin",
          .configureStep "/tmp/xeus-cling_build" "/tmp/xeus-cling"
            (xeus_cmake_opts "/opt/miniconda3" "RELEASE" "/opt/cling" none),
          .buildStep none "install" ] = []
    ∧ ([ Cmd.cloneStep "u" (some "b") none "/tmp" (some "xeus-cling") [],
         Cmd.raw "bPATH=$PATH",
         Cmd.raw "PATH=$bPATH://opt/cling/bin",
         Cmd.configureStep "/tmp/xeus-cling_build" "/tmp/xeus-cling"
           (xeus_cmake_opts "/opt/miniconda3" "RELEASE" "/opt/cling" none),
         Cmd.buildStep none "install" ].filter isPATHassign)
        = [Cmd.raw "PATH=$bPATH://opt/cling/bin"]
    ∧ (Cmd.raw "PATH=//opt/cling/bin:$bPATH")
        ∉ [ Cmd.cloneStep "u" (some "b") none "/tmp" (some "xeus-cling") [],
            Cmd.raw "bPATH=$PATH",
            Cmd.raw "PATH=$bPATH://opt/cling/bin",
            Cmd.configureStep "/tmp/xeus-cling_build" "/tmp/xeus-cling"
              (xeus_cmake_opts "/opt/miniconda3" "RELEASE" "/opt/cling" none),
            Cmd.buildStep none "install" ] := by
  refine ⟨rfl, rfl, ?_, ?_⟩
  · decide
  · decide

/-- C6 (confirmed): the release kernel registrar emits exactly 9
registration blocks — 3 standards (11, 14, 17) times 3 flavors
(xeus-cling with CUDA, bare cling, cling with CUDA) — each block holding
its directory-creation step, its descriptor-write step and its
registration step in that order (positions 4, 5, 6 after the 4 banner
comment lines); the `CLING_OPTS=-xcuda` environment override appears in
the cling-CUDA descriptors only and never in a bare cling descriptor. -/
theorem claim_C6_prop (config : XCC_Config) (user_install : Bool) :
    (build_rel_jupyter_kernel config user_install).1
      = (relJupyterBlocks config (if user_install then "--user " else "")).flatten
    ∧ (relJupyterBlocks config (if user_install then "--user " else "")).length = 9
    ∧ (∀ b ∈ relJupyterBlocks config (if user_install then "--user " else ""),
        b.length = 7
        ∧ (∃ p, b.get? 4 = some ("mkdir -p " ++ p))
        ∧ (∃ j p, b.get? 5 = some ("echo \x27" ++ j ++ "\x27 > " ++ p ++ "/kernel.json"))
        ∧ (∃ r, b.get? 6 = some ("jupyter-kernelspec install " ++ r)))
    ∧ (∀ std : Nat, (gen_cling_jupyter_kernel std false).env = [])
    ∧ (∀ std : Nat, (gen_cling_jupyter_kernel std true).env
        = [("CLING_OPTS", "-xcuda")])
    ∧ (∀ (mp : String) (std : Nat), (gen_xeus_cling_jupyter_kernel mp std).env = [])
    ∧ ([11, 14, 17].all (fun s =>
        !(strContains (dumpsKernel (gen_cling_jupyter_kernel s false)) "CLING_OPTS"))
        = true)
    ∧ ([11, 14, 17].all (fun s =>
        strContains (dumpsKernel (gen_cling_jupyter_kernel s true)) "CLING_OPTS")
        = true) := by
  refine ⟨?_, rfl, ?_, fun _ => rfl, fun _ => rfl, fun _ _ => rfl, by decide, by decide⟩
  · simp only [build_rel_jupyter_kernel, rel_kernel_step, relJupyterBlocks,
      rel_block_xeus, rel_block_cling, rel_block_cling_cuda,
      XCC_Config.get_miniconda_path, List.foldl, List.map, List.flatten,
      List.append_assoc, List.nil_append, List.cons_append]
  · intro b hb
    simp only [relJupyterBlocks, rel_block_xeus, rel_block_cling,
      rel_block_cling_cuda, List.map, List.append_assoc, List.nil_append,
      List.cons_append, List.mem_cons, List.mem_singleton,
      List.not_mem_nil, or_false] at hb
    rcases hb with h | h | h | h | h | h | h | h | h <;> subst h <;>
      exact ⟨rfl, ⟨_, rfl⟩, ⟨_, _, rfl⟩, ⟨_, rfl⟩⟩

set_option maxRecDepth 8000

/-- C6 witness: on the default config the registrar emits the 9 blocks and
the first block has the 7-entry shape. -/
theorem claim_C6_witness :
    (relJupyterBlocks cfg0 "").length = 9
    ∧ ((relJupyterBlocks cfg0 "").getD 0 []).length = 7 :=
  ⟨(claim_C6_prop cfg0 false).2.1,
   ((claim_C6_prop cfg0 false).2.2.1 ((relJupyterBlocks cfg0 "").getD 0 [])
     (by decide)).1⟩

/-- C7 (confirmed): when `install_prefix` starts with neither `/tmp` nor
`/opt`, `gen_release_multi_stages` raises the configuration `ValueError`
as its very first action — before the base stage or any project build
instruction is generated — so no partial plan is produced. -/
theorem claim_C7_prop (g : XCC_gen)
    (h1 : pyStartsWith g.install_pfx "/tmp" = false)
    (h2 : pyStartsWith g.install_pfx "/opt" = false) :
    gen_release_multi_stages g = .error (multiStageGuardMsg g.install_pfx) := by
  unfold gen_release_multi_stages
  rw [h1, h2]
  rfl

/-- C7 witness: with `install_prefix = "/var/xcc"` the multi-stage release
composition is the guard error. -/
theorem claim_C7_witness :
    gen_release_multi_stages
      { container := "singularity", build_pfx := "/tmp",
        install_pfx := "/var/xcc", build_type := "RELEASE", threads := none,
        linker_threads := none, build_libcxx := none, config := cfg0,
        clang_version := 8, gen_args := none,
        cling_url := "https://github.com/root-project/cling.git",
        cling_branch := none, cling_hash := some "595580b",
        project_list := xcc_project_list "RELEASE" none }
      = .error (multiStageGuardMsg "/var/xcc") :=
  claim_C7_prop
    { container := "singularity", build_pfx := "/tmp",
      install_pfx := "/var/xcc", build_type := "RELEASE", threads := none,
      linker_threads := none, build_libcxx := none, config := cfg0,
      clang_version := 8, gen_args := none,
      cling_url := "https://github.com/root-project/cling.git",
      cling_branch := none, cling_hash := some "595580b",
      project_list := xcc_project_list "RELEASE" none }
    (by decide) (by decide)

/-- The registrar loops only ever append to `paths_to_delete`. -/
theorem rel_fold_appends (block : XCC_Config → String → Nat → List String × String)
    (uarg : String) :
    ∀ (stds : List Nat) (acc : List String × XCC_Config), ∃ s,
      (stds.foldl (rel_kernel_step block uarg) acc).2.paths_to_delete
        = acc.2.paths_to_delete ++ s := by
  intro stds
  induction stds with
  | nil => exact fun acc => ⟨[], by simp⟩
  | cons std rest ih =>
    intro acc
    obtain ⟨s, hs⟩ := ih (rel_kernel_step block uarg acc std)
    refine ⟨(if acc.2.keep_build then [] else [(block acc.2 uarg std).2]) ++ s, ?_⟩
    show (rest.foldl (rel_kernel_step block uarg)
      (rel_kernel_step block uarg acc std)).2.paths_to_delete = _
    rw [hs]
    show (acc.2.paths_to_delete ++ _) ++ s = _
    rw [List.append_assoc]

/-- C9 (confirmed, for the calls that return): every build-step generator
— generic git+cmake, interpreter-core, interop-bridge, crypto-library,
release kernel registrar — only ever appends to `paths_to_delete`: the
incoming list is a prefix of the outgoing list. -/
theorem claim_C9_prop :
    (∀ (name url branch : String) (config : XCC_Config) (opts : List String),
      ∃ s, (build_git_and_cmake name url branch config opts).2.paths_to_delete
        = config.paths_to_delete ++ s)
    ∧ (∀ (bp ip mp bt cu : String) (config : XCC_Config)
        (fkb : Option Bool) (cb ch : Option String) (th lth : Option Int)
        (db : Option String) (gco : List String) (blc : Option Bool),
      ∃ s, (build_cling bp ip mp bt cu config fkb cb ch th lth db gco
          blc).2.2.paths_to_delete = config.paths_to_delete ++ s)
    ∧ (∀ (bp bt url branch : String) (th : Option Int) (config : XCC_Config)
        (mp : String) (cps : List String) (fkb : Option Bool)
        (sb : Option String) (blc : Option Bool) (cm : List Cmd)
        (c2 : XCC_Config),
      build_xeus_cling bp bt url branch th config mp cps fkb sb blc
          = .ok (cm, c2) →
      ∃ s, c2.paths_to_delete = config.paths_to_delete ++ s)
    ∧ (∀ (name bp ip : String) (th : Option Int) (config : XCC_Config),
      ∃ s, (build_openssl name bp ip th config).2.2.paths_to_delete
        = config.paths_to_delete ++ s)
    ∧ (∀ (config : XCC_Config) (u : Bool),
      ∃ s, (build_rel_jupyter_kernel config u).2.paths_to_delete
        = config.paths_to_delete ++ s) := by
  refine ⟨?_, ?_, ?_, ?_, ?_⟩
  · intro name url branch config opts
    refine ⟨(if (config.get_cmake_compiler_threads).2.keep_build then []
      else [config.build_pfx ++ "/" ++ name ++ "_build",
            config.build_pfx ++ "/" ++ name]), ?_⟩
    show (config.get_cmake_compiler_threads).2.paths_to_delete ++ _ = _
    rw [(compiler_threads_snd_fields config).1]
  · intro bp ip mp bt cu config fkb cb ch th lth db gco blc
    exact ⟨_, rfl⟩
  · intro bp bt url branch th config mp cps fkb sb blc cm c2 h
    simp only [build_xeus_cling] at h
    split at h
    · exact absurd h (by simp)
    · simp only [Except.ok.injEq, Prod.mk.injEq] at h
      obtain ⟨-, hc⟩ := h
      subst hc
      exact ⟨_, rfl⟩
  · intro name bp ip th config
    exact ⟨_, rfl⟩
  · intro config u
    unfold build_rel_jupyter_kernel
    obtain ⟨s1, h1⟩ := rel_fold_appends rel_block_xeus
      (if u then "--user " else "") [11, 14, 17] ([], config)
    obtain ⟨s2, h2⟩ := rel_fold_appends rel_block_cling
      (if u then "--user " else "")
      [11, 14, 17] ([11, 14, 17].foldl
        (rel_kernel_step rel_block_xeus (if u then "--user " else ""))
        ([], config))
    obtain ⟨s3, h3⟩ := rel_fold_appends rel_block_cling_cuda
      (if u then "--user " else "")
      [11, 14, 17] ([11, 14, 17].foldl
        (rel_kernel_step rel_block_cling (if u then "--user " else ""))
        ([11, 14, 17].foldl
          (rel_kernel_step rel_block_xeus (if u then "--user " else ""))
          ([], config)))
    refine ⟨s1 ++ s2 ++ s3, ?_⟩
    rw [h3, h2, h1]
    simp [List.append_assoc]

/-- C9 witness: the interop-bridge generator on a concrete successful call
extends the cleanup list by a suffix. -/
theorem claim_C9_witness :
    ∃ s, ({ cfg0 with paths_to_delete :=
        ["/tmp/xeus-cling_build", "/tmp/xeus-cling"] } : XCC_Config).paths_to_delete
      = cfg0.paths_to_delete ++ s :=
  claim_C9_prop.2.2.1 "/tmp" "RELEASE" "u2" "b2" none cfg0 "/opt/miniconda3"
    ["/usr"] none none none
    [ .cloneStep "u2" (some "b2") none "/tmp" (some "xeus-cling") [],
      .raw "bPATH=$PATH",
      .raw "PATH=$bPATH://usr/bin",
      .configureStep "/tmp/xeus-cling_build" "/tmp/xeus-cling"
        (xeus_cmake_opts "/opt/miniconda3" "RELEASE" "/usr" none),
      .buildStep none "install" ]
    { cfg0 with paths_to_delete := ["/tmp/xeus-cling_build", "/tmp/xeus-cling"] }
    (by rfl)

end XCC
